import Mathlib

/-!
Verification of the GSimulator evaluation/plotting routine
(`GSimulator/command_helper.py`).

Shallow embedding conventions:
* Python floats are modelled as exact rationals (`ℚ`); the claims under
  study are structural (sequence construction, ordering, shapes, control
  flow), not about rounding.
* NumPy arrays are modelled as `List ℚ`; 2-D arrays as `List (List ℚ)`.
* Library calls (`np.arange`, `np.where`, `np.gradient`, `np.genfromtxt`)
  are embedded by their documented semantics.
* The `Model` class lives outside the analysed file; `plotter` only invokes
  its constructor, attributes and `total_transmission`, so the embedding is
  parametrised by an arbitrary model constructor
  `M : α → ℚ → ℚ → ℚ → ℚ → ℚ → ModelInstance` (the §6 adapter interface).
* Side effects are reified: the figure state produced by a successful run
  of `plotter` is collected in a `PlotterOutput` record, and the two
  crashing control paths of the Python source (indexing the empty
  `np.where` result, and reading the never-assigned `x_min` when the batch
  is empty) are modelled as `Except.error` results.
-/

namespace GSimulator

/-- `np.arange start stop step` for a positive `step`: the values
`start + k*step` for `0 ≤ k < ⌈(stop - start)/step⌉` (an exclusive upper
bound; empty when `stop ≤ start`). -/
def arange (start stop step : ℚ) : List ℚ :=
  (List.range (Int.ceil ((stop - start) / step)).toNat).map
    (fun (k : ℕ) => start + (k : ℚ) * step)

/-- `np.gradient` on a 1-D array: one-sided differences at the two ends,
central differences in the interior.  (NumPy rejects arrays of length < 2;
the embedding totalises those cases, which no claim exercises.) -/
def npGradient (ys : List ℚ) : List ℚ :=
  (List.range ys.length).map (fun k =>
    if k = 0 then ys.getD 1 0 - ys.getD 0 0
    else if k = ys.length - 1 then ys.getD k 0 - ys.getD (k - 1) 0
    else (ys.getD (k + 1) 0 - ys.getD (k - 1) 0) / 2)

/-- The §6 Model Adapter interface: the attributes and methods of a
constructed `Model` that `plotter` reads. -/
structure ModelInstance where
  hw_x : ℚ
  hw_y : ℚ
  magnetic_field : ℚ
  angle : ℚ
  E1 : ℚ
  E2 : ℚ
  eVsd : ℚ
  hw_c : ℚ
  zeeman : ℚ → ℚ
  total_transmission : ℕ → List ℚ → List ℚ

/-- Lines 102-110 of `command_helper.py`: unpack a configuration row
`(hw_x, ratio_wy_wx, V_sd, B, angle)` and construct the model, with
`hw_y = ratio_wy_wx * hw_x` as second constructor argument.  (Setup rows
always carry five columns per the CSV contract, so the `getD` defaults are
never read.) -/
def configModel {α : Type} (M : α → ℚ → ℚ → ℚ → ℚ → ℚ → ModelInstance)
    (material : α) (e : List ℚ) : ModelInstance :=
  M material (e.getD 0 0) (e.getD 1 0 * e.getD 0 0) (e.getD 2 0)
    (e.getD 3 0) (e.getD 4 0)

/-- Line 113: the row handed to `table.add_row`, in source order. -/
def summaryRow (m : ModelInstance) : List ℚ :=
  [m.hw_x, m.hw_y / m.hw_x, m.magnetic_field, m.angle, m.E1, m.E2,
   m.eVsd, m.hw_c, m.zeeman (1 / 2)]

/-- Line 116: `y = model.total_transmission(channels, x - i * offset)` —
the overlay trace of configuration `i` is the model evaluated on the
shared display sweep shifted down by `i*offset`. -/
def overlayTrace (m : ModelInstance) (channels : ℕ) (x : List ℚ)
    (offset : ℚ) (i : ℕ) : List ℚ :=
  m.total_transmission channels (x.map (fun v => v - (i : ℚ) * offset))

/-- Line 94: the shared display sweep `np.arange(-2, offset*plots + channels*6, 0.1)`. -/
def displaySweep (plots channels : ℕ) (offset : ℚ) : List ℚ :=
  arange (-2) (offset * (plots : ℚ) + (channels : ℚ) * 6) (1 / 10)

/-- Line 97: the differential sweep `np.arange(-2, 30, 0.1)`; it takes no
parameters, so it is independent of the batch size and the offset. -/
def diffSweep : List ℚ := arange (-2) 30 (1 / 10)

/-- The saturation test of line 120: `y >= channels - 0.1`. -/
def saturPred (channels : ℕ) (v : ℚ) : Bool :=
  decide ((channels : ℚ) - 1 / 10 ≤ v)

/-- Lines 120-122: `min = np.where(y >= channels - 0.1)`;
`x_min = x[min[0][0]] + 1`.  `np.where`'s first match is the first index
satisfying the predicate; when no sample qualifies the Python source
crashes on `min[0][0]`, modelled here by `none`. -/
def xMin (x y : List ℚ) (channels : ℕ) : Option ℚ :=
  (y.findIdx? (saturPred channels)).map (fun k => x.getD k 0 + 1)

/-- The observable state assembled by a successful `plotter` run:
the table rows, the traces handed to `axs.plot` (with the x-axis each is
plotted against), the derivative matrix, the saturation crop, the contour
figure, and the files written by `savefig`. -/
structure PlotterOutput where
  summaryRows : List (List ℚ)
  overlayTraces : List (List ℚ)
  plottedPairs : List (List ℚ × List ℚ)
  dydx : List (List ℚ)
  x_min : ℚ
  xlim : ℚ × ℚ
  contourBuilt : Bool
  contourXlim : Option (ℚ × ℚ)
  savedFiles : List String
  deriving DecidableEq

/-- The two crashing control paths of the Python `plotter`:
`indexError` — `min[0][0]` on the empty `np.where` result (line 121);
`nameError` — `axs.set_xlim([-1, x_min])` with `x_min` never assigned,
which happens exactly when the batch is empty (line 132). -/
inductive PlotterError where
  | indexError
  | nameError
  deriving DecidableEq

/-- The per-run data of `plotter` (lines 100-149) for a run that passes the
saturation lookup with value `x_min`.  The loop of line 100 runs `i` over
`range(plots)` and reads `exp_setup[i]`; the save of the contour figure
(line 146, guarded by `plots > 1`) precedes the save of the overlay figure
(line 149) in source order. -/
def plotterCore {α : Type} (M : α → ℚ → ℚ → ℚ → ℚ → ℚ → ModelInstance)
    (material : α) (exp_setup : List (List ℚ)) (channels : ℕ) (offset : ℚ)
    (savefig : Option String) (x_min : ℚ) : PlotterOutput where
  summaryRows := (List.range exp_setup.length).map
    (fun i => summaryRow (configModel M material (exp_setup.getD i [])))
  overlayTraces := (List.range exp_setup.length).map
    (fun i => overlayTrace (configModel M material (exp_setup.getD i []))
      channels (displaySweep exp_setup.length channels offset) offset i)
  plottedPairs := (List.range exp_setup.length).map
    (fun i => (displaySweep exp_setup.length channels offset,
      overlayTrace (configModel M material (exp_setup.getD i []))
        channels (displaySweep exp_setup.length channels offset) offset i))
  dydx := (List.range exp_setup.length).map
    (fun i => npGradient ((configModel M material (exp_setup.getD i [])).total_transmission
      channels diffSweep))
  x_min := x_min
  xlim := (-1, x_min)
  contourBuilt := decide (1 < exp_setup.length)
  contourXlim := if 1 < exp_setup.length then
      some (0, (x_min - ((exp_setup.length : ℚ) - 3) * offset) * 10)
    else none
  savedFiles :=
    (if 1 < exp_setup.length then
      (savefig.map (fun n => "./Results/diff_" ++ n)).toList
    else []) ++ (savefig.map (fun n => "./Results/" ++ n)).toList

/-- Lines 93-149 of `command_helper.py`.  `plots = len(exp_setup)`; the
saturation lookup happens at the last loop iteration `i = plots - 1` on
that iteration's overlay trace, before any `savefig` call; a batch of
length 0 skips the loop entirely and crashes reading the unassigned
`x_min` at line 132. -/
def plotter {α : Type} (M : α → ℚ → ℚ → ℚ → ℚ → ℚ → ModelInstance)
    (material : α) (exp_setup : List (List ℚ)) (channels : ℕ) (offset : ℚ)
    (savefig : Option String) : Except PlotterError PlotterOutput :=
  if exp_setup.length = 0 then
    Except.error PlotterError.nameError
  else
    match xMin (displaySweep exp_setup.length channels offset)
        (overlayTrace
          (configModel M material (exp_setup.getD (exp_setup.length - 1) []))
          channels (displaySweep exp_setup.length channels offset) offset
          (exp_setup.length - 1))
        channels with
    | none => Except.error PlotterError.indexError
    | some xm =>
        Except.ok (plotterCore M material exp_setup channels offset savefig xm)

/-- The files a call to `plotter` writes to disk: a crashing run reaches
no `savefig` call (both saves, lines 146 and 149, come after the loop in
which the crash occurs and after the `set_xlim` of line 132). -/
def filesWritten (r : Except PlotterError PlotterOutput) : List String :=
  match r with
  | Except.error _ => []
  | Except.ok out => out.savedFiles

/-- The dimensionality of a NumPy array returned by `np.genfromtxt`:
a CSV body with a single data row is squeezed to a 1-D array. -/
inductive NDArr where
  | one (row : List ℚ)
  | two (rows : List (List ℚ))
  deriving DecidableEq

/-- `np.genfromtxt(file, delimiter=",", skip_header=1)` viewed on the data
rows that remain after the header is skipped: a single row yields a 1-D
array, any other number of rows a 2-D array. -/
def genfromtxt (dataRows : List (List ℚ)) : NDArr :=
  match dataRows with
  | [r] => NDArr.one r
  | rs => NDArr.two rs

/-- Lines 22-29 of `command_helper.py`: `read_setup` re-wraps a 1-D
`genfromtxt` result (`exp_setup.ndim == 1`) into a 2-D array of one row. -/
def read_setup (dataRows : List (List ℚ)) : NDArr :=
  match genfromtxt dataRows with
  | NDArr.one r => NDArr.two [r]
  | a => a

/-- A concrete Model Adapter instance satisfying the §6 interface whose
transmission is the constant `channels` (already saturated everywhere);
used to exercise the successful control path on concrete batches. -/
def stepModel (hw_x hw_y V_sd B angle : ℚ) : ModelInstance where
  hw_x := hw_x
  hw_y := hw_y
  magnetic_field := B
  angle := angle
  E1 := hw_x
  E2 := hw_x + hw_y
  eVsd := V_sd
  hw_c := B
  zeeman := fun s => s * B
  total_transmission := fun c xs => xs.map (fun _ => (c : ℚ))

/-- A concrete Model Adapter instance whose transmission is identically 0
(it never reaches the saturation threshold for a positive channel count);
used to exercise the saturation-failure control path. -/
def flatModel (hw_x hw_y V_sd B angle : ℚ) : ModelInstance where
  hw_x := hw_x
  hw_y := hw_y
  magnetic_field := B
  angle := angle
  E1 := hw_x
  E2 := hw_x + hw_y
  eVsd := V_sd
  hw_c := B
  zeeman := fun s => s * B
  total_transmission := fun _ xs => xs.map (fun _ => 0)

/-- The saturating demo model constructor, over a trivial material table. -/
def demoM : Unit → ℚ → ℚ → ℚ → ℚ → ℚ → ModelInstance := fun _ => stepModel

/-- The never-saturating demo model constructor. -/
def flatM : Unit → ℚ → ℚ → ℚ → ℚ → ℚ → ModelInstance := fun _ => flatModel

/-- A one-configuration demo batch `(hw_x, ratio, V_sd, B, angle)`. -/
def demoBatch1 : List (List ℚ) := [[2, 1, 0, 0, 0]]

/-- A two-configuration demo batch. -/
def demoBatch2 : List (List ℚ) := [[2, 1, 0, 0, 0], [3, 1, 0, 0, 0]]

/-- A demo save name. -/
def demoName : String := "out.pdf"

/-! ## Basic lemmas about the embedded library functions -/

theorem range_map_getD {β : Type} (n : ℕ) (f : ℕ → β) (d : β) (k : ℕ)
    (hk : k < n) : ((List.range n).map f).getD k d = f k := by
  rw [List.getD_eq_getElem?_getD, List.getElem?_map, List.getElem?_range hk]
  rfl

theorem arange_length (start stop step : ℚ) :
    (arange start stop step).length = (Int.ceil ((stop - start) / step)).toNat := by
  unfold arange
  rw [List.length_map, List.length_range]

theorem arange_getD (start stop step : ℚ) (k : ℕ)
    (hk : k < (arange start stop step).length) :
    (arange start stop step).getD k 0 = start + (k : ℚ) * step := by
  rw [arange_length] at hk
  exact range_map_getD _ _ _ _ hk

theorem arange_index_iff (start stop step : ℚ) (hstep : 0 < step) (k : ℕ) :
    k < (arange start stop step).length ↔ start + (k : ℚ) * step < stop := by
  rw [arange_length, Int.lt_toNat, Int.lt_ceil]
  push_cast
  rw [lt_div_iff₀ hstep]
  constructor <;> intro h <;> linarith

theorem npGradient_length (ys : List ℚ) : (npGradient ys).length = ys.length := by
  simp [npGradient]

/-! ## Shape lemmas for the plotter output -/

theorem plotterCore_summaryRows {α : Type} (M : α → ℚ → ℚ → ℚ → ℚ → ℚ → ModelInstance)
    (material : α) (exp_setup : List (List ℚ)) (channels : ℕ) (offset : ℚ)
    (savefig : Option String) (xm : ℚ) :
    (plotterCore M material exp_setup channels offset savefig xm).summaryRows =
      (List.range exp_setup.length).map
        (fun i => summaryRow (configModel M material (exp_setup.getD i []))) := rfl

theorem plotterCore_overlayTraces {α : Type} (M : α → ℚ → ℚ → ℚ → ℚ → ℚ → ModelInstance)
    (material : α) (exp_setup : List (List ℚ)) (channels : ℕ) (offset : ℚ)
    (savefig : Option String) (xm : ℚ) :
    (plotterCore M material exp_setup channels offset savefig xm).overlayTraces =
      (List.range exp_setup.length).map
        (fun i => overlayTrace (configModel M material (exp_setup.getD i []))
          channels (displaySweep exp_setup.length channels offset) offset i) := rfl

theorem plotterCore_plottedPairs {α : Type} (M : α → ℚ → ℚ → ℚ → ℚ → ℚ → ModelInstance)
    (material : α) (exp_setup : List (List ℚ)) (channels : ℕ) (offset : ℚ)
    (savefig : Option String) (xm : ℚ) :
    (plotterCore M material exp_setup channels offset savefig xm).plottedPairs =
      (List.range exp_setup.length).map
        (fun i => (displaySweep exp_setup.length channels offset,
          overlayTrace (configModel M material (exp_setup.getD i []))
            channels (displaySweep exp_setup.length channels offset) offset i)) := rfl

theorem plotterCore_dydx {α : Type} (M : α → ℚ → ℚ → ℚ → ℚ → ℚ → ModelInstance)
    (material : α) (exp_setup : List (List ℚ)) (channels : ℕ) (offset : ℚ)
    (savefig : Option String) (xm : ℚ) :
    (plotterCore M material exp_setup channels offset savefig xm).dydx =
      (List.range exp_setup.length).map
        (fun i => npGradient ((configModel M material (exp_setup.getD i [])).total_transmission
          channels diffSweep)) := rfl

theorem plotterCore_savedFiles {α : Type} (M : α → ℚ → ℚ → ℚ → ℚ → ℚ → ModelInstance)
    (material : α) (exp_setup : List (List ℚ)) (channels : ℕ) (offset : ℚ)
    (savefig : Option String) (xm : ℚ) :
    (plotterCore M material exp_setup channels offset savefig xm).savedFiles =
      (if 1 < exp_setup.length then
        (savefig.map (fun n => "./Results/diff_" ++ n)).toList
      else []) ++ (savefig.map (fun n => "./Results/" ++ n)).toList := rfl

/-- A successful `plotter` run presupposes a nonempty batch and produces
exactly the `plotterCore` record for some saturation bound. -/
theorem plotter_ok_spec {α : Type} (M : α → ℚ → ℚ → ℚ → ℚ → ℚ → ModelInstance)
    (material : α) (exp_setup : List (List ℚ)) (channels : ℕ) (offset : ℚ)
    (savefig : Option String) (out : PlotterOutput)
    (hok : plotter M material exp_setup channels offset savefig = Except.ok out) :
    exp_setup.length ≠ 0 ∧
      ∃ xm, out = plotterCore M material exp_setup channels offset savefig xm := by
  unfold plotter at hok
  split at hok
  · exact absurd hok (by simp)
  · rename_i hne
    split at hok
    · exact absurd hok (by simp)
    · rename_i xm hxm
      exact ⟨hne, xm, (Except.ok.injEq _ _ ▸ hok).symm⟩

/-! ## The claims -/

/-- C2: for every batch size `plots`, offset and channel count, the display
sweep is the fixed-step sequence starting at `-2` with step `0.1` and
exclusive upper bound `offset*plots + channels*6`: index `k` is present
exactly when `-2 + k*0.1` lies below that bound, and then holds that value.
The differential sweep is likewise the fixed-step sequence from `-2` to
`30` (exclusive) with step `0.1`; `diffSweep` is a closed constant exactly
as in the source, hence independent of `plots` and `offset`. -/
theorem sweep_construction (plots channels : ℕ) (offset : ℚ) :
    (∀ k : ℕ, k < (displaySweep plots channels offset).length →
      (displaySweep plots channels offset).getD k 0 = -2 + (k : ℚ) * (1 / 10)) ∧
    (∀ k : ℕ, k < (displaySweep plots channels offset).length ↔
      (-2 : ℚ) + (k : ℚ) * (1 / 10) < offset * (plots : ℚ) + (channels : ℚ) * 6) ∧
    (∀ k : ℕ, k < diffSweep.length → diffSweep.getD k 0 = -2 + (k : ℚ) * (1 / 10)) ∧
    (∀ k : ℕ, k < diffSweep.length ↔ (-2 : ℚ) + (k : ℚ) * (1 / 10) < 30) :=
  ⟨fun k hk => arange_getD _ _ _ k hk,
   fun k => arange_index_iff _ _ _ (by norm_num) k,
   fun k hk => arange_getD _ _ _ k hk,
   fun k => arange_index_iff _ _ _ (by norm_num) k⟩

/-- C8: a setup CSV whose body has exactly one data row yields a batch of
size 1 — a 2-D array holding that single row — never the bare 1-D row that
`np.genfromtxt` produced (lines 26-28 re-wrap it). -/
theorem single_row_not_squashed (r : List ℚ) : read_setup [r] = NDArr.two [r] := rfl

/-- C7: the claim is right and the code is wrong: an empty batch is not
rejected with an explicit error.  The loop body never runs, `x_min` is
never assigned, and the run aborts with the Python `UnboundLocalError` at
`axs.set_xlim([-1, x_min])` (line 132), modelled as
`PlotterError.nameError` — an accidental crash, not an explicit
rejection. -/
theorem empty_batch_crash :
    plotter demoM () [] 1 0 none = Except.error PlotterError.nameError := rfl

/-- C1: the claim fails on the code: for a batch whose last overlay trace
never reaches `channels - 0.1` (here: transmission identically 0 with
`channels = 1`), `plotter` raises no "saturation not reached" error — it
executes `min[0][0]` on the empty `np.where` result (line 121) and aborts
with the resulting `IndexError`, modelled as `PlotterError.indexError`. -/
theorem saturation_error_not_raised :
    plotter flatM () demoBatch1 1 0 none = Except.error PlotterError.indexError := by
  with_unfolding_all rfl

/-- C3: when the last configuration's overlay trace contains a sample at or
above `channels - 0.1` and `j` is the first such position, the run
succeeds, `x_min` equals the display-sweep value at position `j` plus 1,
and the overlay figure's final x-axis limits are exactly `[-1, x_min]`. -/
theorem saturation_crop {α : Type} (M : α → ℚ → ℚ → ℚ → ℚ → ℚ → ModelInstance)
    (material : α) (exp_setup : List (List ℚ)) (channels : ℕ) (offset : ℚ)
    (savefig : Option String) (j : ℕ)
    (hne : exp_setup.length ≠ 0)
    (hfind : (overlayTrace
        (configModel M material (exp_setup.getD (exp_setup.length - 1) []))
        channels (displaySweep exp_setup.length channels offset) offset
        (exp_setup.length - 1)).findIdx? (saturPred channels) = some j) :
    plotter M material exp_setup channels offset savefig =
      Except.ok (plotterCore M material exp_setup channels offset savefig
        ((displaySweep exp_setup.length channels offset).getD j 0 + 1)) ∧
    (plotterCore M material exp_setup channels offset savefig
        ((displaySweep exp_setup.length channels offset).getD j 0 + 1)).x_min =
      (displaySweep exp_setup.length channels offset).getD j 0 + 1 ∧
    (plotterCore M material exp_setup channels offset savefig
        ((displaySweep exp_setup.length channels offset).getD j 0 + 1)).xlim =
      (-1, (displaySweep exp_setup.length channels offset).getD j 0 + 1) := by
  refine ⟨?_, rfl, rfl⟩
  unfold plotter
  rw [if_neg hne]
  unfold xMin
  rw [hfind]
  rfl

set_option maxRecDepth 10000 in
/-- Witness for C3: a saturating model on a singleton batch; the first
qualifying sample sits at position 0 of the trace. -/
theorem saturation_crop_witness :
    plotter demoM () demoBatch1 1 0 none =
      Except.ok (plotterCore demoM () demoBatch1 1 0 none
        ((displaySweep demoBatch1.length 1 0).getD 0 0 + 1)) ∧
    (plotterCore demoM () demoBatch1 1 0 none
        ((displaySweep demoBatch1.length 1 0).getD 0 0 + 1)).x_min =
      (displaySweep demoBatch1.length 1 0).getD 0 0 + 1 ∧
    (plotterCore demoM () demoBatch1 1 0 none
        ((displaySweep demoBatch1.length 1 0).getD 0 0 + 1)).xlim =
      (-1, (displaySweep demoBatch1.length 1 0).getD 0 0 + 1) :=
  saturation_crop demoM () demoBatch1 1 0 none 0 (by decide)
    (by with_unfolding_all rfl)

/-- C10: a saturation-lookup failure on the last configuration's trace
happens inside the loop (line 121), before either `savefig` call (lines
146 and 149), so even with a save name supplied the run aborts with the
index error and writes no file at all. -/
theorem failure_blocks_saving {α : Type} (M : α → ℚ → ℚ → ℚ → ℚ → ℚ → ModelInstance)
    (material : α) (exp_setup : List (List ℚ)) (channels : ℕ) (offset : ℚ)
    (name : String)
    (hne : exp_setup.length ≠ 0)
    (hfind : (overlayTrace
        (configModel M material (exp_setup.getD (exp_setup.length - 1) []))
        channels (displaySweep exp_setup.length channels offset) offset
        (exp_setup.length - 1)).findIdx? (saturPred channels) = none) :
    plotter M material exp_setup channels offset (some name) =
      Except.error PlotterError.indexError ∧
    filesWritten (plotter M material exp_setup channels offset (some name)) = [] := by
  have h : plotter M material exp_setup channels offset (some name) =
      Except.error PlotterError.indexError := by
    unfold plotter
    rw [if_neg hne]
    unfold xMin
    rw [hfind]
    rfl
  exact ⟨h, by rw [h]; rfl⟩

set_option maxRecDepth 10000 in
/-- Witness for C10: the never-saturating model with a save name supplied;
the run errors out and writes nothing. -/
theorem failure_blocks_saving_witness :
    plotter flatM () demoBatch2 1 0 (some demoName) =
      Except.error PlotterError.indexError ∧
    filesWritten (plotter flatM () demoBatch2 1 0 (some demoName)) = [] :=
  failure_blocks_saving flatM () demoBatch2 1 0 demoName (by decide)
    (by with_unfolding_all rfl)

/-- C4: on a successful run, configuration `i`'s overlay trace is the
model's transmission applied to the shared display sweep with `i*offset`
subtracted from every sample, and the trace is plotted against the
unshifted display sweep. -/
theorem overlay_offset {α : Type} (M : α → ℚ → ℚ → ℚ → ℚ → ℚ → ModelInstance)
    (material : α) (exp_setup : List (List ℚ)) (channels : ℕ) (offset : ℚ)
    (savefig : Option String) (i : ℕ) (out : PlotterOutput)
    (hok : plotter M material exp_setup channels offset savefig = Except.ok out)
    (hi : i < exp_setup.length) :
    out.overlayTraces.getD i [] =
      (configModel M material (exp_setup.getD i [])).total_transmission channels
        ((displaySweep exp_setup.length channels offset).map
          (fun v => v - (i : ℚ) * offset)) ∧
    out.plottedPairs.getD i ([], []) =
      (displaySweep exp_setup.length channels offset, out.overlayTraces.getD i []) := by
  obtain ⟨-, xm, rfl⟩ :=
    plotter_ok_spec M material exp_setup channels offset savefig out hok
  rw [plotterCore_overlayTraces, plotterCore_plottedPairs,
    range_map_getD _ _ _ _ hi, range_map_getD _ _ _ _ hi]
  exact ⟨rfl, rfl⟩

set_option maxRecDepth 10000 in
/-- Witness for C4: the second configuration of a two-element batch with a
nonzero offset. -/
theorem overlay_offset_witness :
    (plotterCore demoM () demoBatch2 1 5 none (-1)).overlayTraces.getD 1 [] =
      (configModel demoM () (demoBatch2.getD 1 [])).total_transmission 1
        ((displaySweep demoBatch2.length 1 5).map
          (fun v => v - ((1 : ℕ) : ℚ) * 5)) ∧
    (plotterCore demoM () demoBatch2 1 5 none (-1)).plottedPairs.getD 1 ([], []) =
      (displaySweep demoBatch2.length 1 5,
        (plotterCore demoM () demoBatch2 1 5 none (-1)).overlayTraces.getD 1 []) :=
  overlay_offset demoM () demoBatch2 1 5 none 1
    (plotterCore demoM () demoBatch2 1 5 none (-1))
    (by with_unfolding_all rfl) (by decide)

/-- C5: on a successful run over a batch of `n ≥ 1` configurations the
derivative matrix has exactly `n` rows, in original batch order; row `i`
is the numerical gradient of configuration `i`'s transmission over the
unshifted differential sweep, and — via the adapter's equal-length
contract — every row's length equals the differential sweep's length. -/
theorem derivative_matrix_rows {α : Type} (M : α → ℚ → ℚ → ℚ → ℚ → ℚ → ModelInstance)
    (material : α) (exp_setup : List (List ℚ)) (channels : ℕ) (offset : ℚ)
    (savefig : Option String) (i : ℕ) (out : PlotterOutput)
    (hok : plotter M material exp_setup channels offset savefig = Except.ok out)
    (hT : ∀ e xs : List ℚ,
      ((configModel M material e).total_transmission channels xs).length = xs.length)
    (hi : i < exp_setup.length) :
    out.dydx.length = exp_setup.length ∧
    1 ≤ exp_setup.length ∧
    out.dydx.getD i [] =
      npGradient ((configModel M material (exp_setup.getD i [])).total_transmission
        channels diffSweep) ∧
    (out.dydx.getD i []).length = diffSweep.length := by
  obtain ⟨hne, xm, rfl⟩ :=
    plotter_ok_spec M material exp_setup channels offset savefig out hok
  refine ⟨?_, Nat.one_le_iff_ne_zero.mpr hne, ?_, ?_⟩
  · rw [plotterCore_dydx, List.length_map, List.length_range]
  · rw [plotterCore_dydx, range_map_getD _ _ _ _ hi]
  · rw [plotterCore_dydx, range_map_getD _ _ _ _ hi, npGradient_length, hT]

set_option maxRecDepth 10000 in
/-- Witness for C5: the two-configuration batch; the first derivative row
has the differential sweep's length. -/
theorem derivative_matrix_rows_witness :
    (plotterCore demoM () demoBatch2 1 0 none (-1)).dydx.length = demoBatch2.length ∧
    1 ≤ demoBatch2.length ∧
    (plotterCore demoM () demoBatch2 1 0 none (-1)).dydx.getD 0 [] =
      npGradient ((configModel demoM () (demoBatch2.getD 0 [])).total_transmission
        1 diffSweep) ∧
    ((plotterCore demoM () demoBatch2 1 0 none (-1)).dydx.getD 0 []).length =
      diffSweep.length :=
  derivative_matrix_rows demoM () demoBatch2 1 0 none 0
    (plotterCore demoM () demoBatch2 1 0 none (-1))
    (by with_unfolding_all rfl)
    (fun e xs => by simp [configModel, demoM, stepModel])
    (by decide)

/-- C6: on a successful run the contour (differential) figure is built
exactly when the batch size exceeds 1; with a save name supplied the
overlay figure is saved as `./Results/<name>` and the contour figure, when
built, as `./Results/diff_<name>`; with no save name nothing is written;
and for a batch of size 1 the only possible save is the overlay file, so
no `diff_`-prefixed save ever occurs. -/
theorem contour_and_saving {α : Type} (M : α → ℚ → ℚ → ℚ → ℚ → ℚ → ModelInstance)
    (material : α) (exp_setup : List (List ℚ)) (channels : ℕ) (offset : ℚ)
    (savefig : Option String) (out : PlotterOutput)
    (hok : plotter M material exp_setup channels offset savefig = Except.ok out) :
    (out.contourBuilt = true ↔ 1 < exp_setup.length) ∧
    (∀ name : String, savefig = some name →
      out.savedFiles =
        (if 1 < exp_setup.length then ["./Results/diff_" ++ name] else []) ++
          ["./Results/" ++ name]) ∧
    (savefig = none → out.savedFiles = []) ∧
    (exp_setup.length = 1 → ∀ name : String, savefig = some name →
      out.savedFiles = ["./Results/" ++ name]) := by
  obtain ⟨-, xm, rfl⟩ :=
    plotter_ok_spec M material exp_setup channels offset savefig out hok
  refine ⟨?_, ?_, ?_, ?_⟩
  · exact decide_eq_true_iff
  · intro name hname
    rw [plotterCore_savedFiles, hname]
    by_cases h : 1 < exp_setup.length <;> simp [h]
  · intro hname
    rw [plotterCore_savedFiles, hname]
    simp
  · intro h1 name hname
    rw [plotterCore_savedFiles, hname, h1]
    simp

set_option maxRecDepth 10000 in
/-- Witness for C6: the two-configuration batch saved under a name yields
the contour figure and both files, `diff_`-prefixed one first as in the
source. -/
theorem contour_and_saving_witness :
    (plotterCore demoM () demoBatch2 1 5 (some demoName) (-1)).contourBuilt = true ∧
    (plotterCore demoM () demoBatch2 1 5 (some demoName) (-1)).savedFiles =
      ["./Results/diff_" ++ demoName, "./Results/" ++ demoName] := by
  have h := contour_and_saving demoM () demoBatch2 1 5 (some demoName)
    (plotterCore demoM () demoBatch2 1 5 (some demoName) (-1))
    (by with_unfolding_all rfl)
  refine ⟨h.1.mpr (by decide), ?_⟩
  rw [h.2.1 demoName rfl]
  rfl

/-- C9: `hw_y` is derived as `ratio_wy_wx * hw_x` — it is the second
argument handed to the model constructor — and summary row `i` is exactly
`[hw_x, hw_y/hw_x, B, angle, E1, E2, eVsd, hw_c, zeeman(1/2)]` of the
model so constructed, in that fixed order (the adapter attributes
`magnetic_field`, `eVsd` and `hw_c` carry the configuration's `B`, `V_sd`
and the cyclotron energy per the §6 interface). -/
theorem summary_row_order {α : Type} (M : α → ℚ → ℚ → ℚ → ℚ → ℚ → ModelInstance)
    (material : α) (exp_setup : List (List ℚ)) (channels : ℕ) (offset : ℚ)
    (savefig : Option String) (i : ℕ) (out : PlotterOutput) (m : ModelInstance)
    (hok : plotter M material exp_setup channels offset savefig = Except.ok out)
    (hi : i < exp_setup.length)
    (hm : m = M material ((exp_setup.getD i []).getD 0 0)
      ((exp_setup.getD i []).getD 1 0 * (exp_setup.getD i []).getD 0 0)
      ((exp_setup.getD i []).getD 2 0) ((exp_setup.getD i []).getD 3 0)
      ((exp_setup.getD i []).getD 4 0)) :
    out.summaryRows.getD i [] =
      [m.hw_x, m.hw_y / m.hw_x, m.magnetic_field, m.angle, m.E1, m.E2,
       m.eVsd, m.hw_c, m.zeeman (1 / 2)] := by
  obtain ⟨-, xm, rfl⟩ :=
    plotter_ok_spec M material exp_setup channels offset savefig out hok
  rw [plotterCore_summaryRows, range_map_getD _ _ _ _ hi, hm]
  rfl

set_option maxRecDepth 10000 in
/-- Witness for C9: the singleton batch `(hw_x, ratio, V_sd, B, angle) =
(2, 1, 0, 0, 0)` yields the row `[2, 1, 0, 0, 2, 4, 0, 0, 0]` for the demo
model. -/
theorem summary_row_order_witness :
    (plotterCore demoM () demoBatch1 1 0 none (-1)).summaryRows.getD 0 [] =
      [2, 1, 0, 0, 2, 4, 0, 0, 0] := by
  have h := summary_row_order demoM () demoBatch1 1 0 none 0
    (plotterCore demoM () demoBatch1 1 0 none (-1))
    (demoM () 2 (1 * 2) 0 0 0)
    (by with_unfolding_all rfl) (by decide) rfl
  rw [h]
  with_unfolding_all rfl

end GSimulator
